import Mathlib

/-!
Verification of the BlackRoad Core gateway (src/gateway/server.js and its
providers registry) against its natural-language specification.

The JavaScript source is shallowly embedded: pure functions become Lean
functions, the in-memory rate limiter and metrics become explicit state
passed through the request handler, fallible steps return Option/Except,
and JavaScript truthiness (empty string, zero, null/undefined are falsy)
is modelled explicitly where the source relies on it.  JavaScript numbers
appearing in the claims (rate limits, byte budgets, confidence values)
are modelled as Int/Rat; none of the verified claims depends on floating
point rounding.
-/

namespace BlackRoad

/-! ## Basic string helpers (JS semantics) -/

/-- JS truthiness of a possibly absent string value: `undefined`, `null`
and the empty string are falsy. -/
def optStrTruthy : Option String → Bool
  | some s => !s.isEmpty
  | none => false

/-- Substring test on character lists: `pat` occurs somewhere inside `cs`.
Models JS `String.prototype.match` / regex literal-alternative search. -/
def listContainsSub (pat cs : List Char) : Bool :=
  (List.range (cs.length + 1)).any (fun i => pat.isPrefixOf (cs.drop i))

/-- Substring test on strings. -/
def strContainsSub (s pat : String) : Bool :=
  listContainsSub pat.toList s.toList

/-- Models JS `String.prototype.startsWith`. -/
def strStartsWith (s p : String) : Bool :=
  p.toList.isPrefixOf s.toList

/-- ASCII lowercase of a string; models JS `toLowerCase` on the ASCII
provider / claim text the gateway handles. -/
def strLower (s : String) : String :=
  String.mk (s.toList.map Char.toLower)

/-! ## JSON values and a model of `JSON.parse`

The verify endpoint extracts a substring of the model output and feeds it
to `JSON.parse`.  We embed JSON values and a strict recursive-descent
parser (fuelled, since Lean needs a termination measure): numbers become
rationals, which is exact for the parsing and clamping the claims
mention. -/

inductive Json where
  | null : Json
  | bool (b : Bool) : Json
  | num (q : ℚ) : Json
  | str (s : String) : Json
  | arr (xs : List Json) : Json
  | obj (kvs : List (String × Json)) : Json

/-- JS object property read with "last duplicate key wins", as
`JSON.parse` produces.  Non-objects have no properties. -/
def Json.getField : Json → String → Option Json
  | Json.obj kvs, k => kvs.foldl (fun acc p => if p.1 = k then some p.2 else acc) none
  | _, _ => none

/-- JSON whitespace skip. -/
def skipWs (cs : List Char) : List Char :=
  cs.dropWhile (fun c => c == ' ' || c == '\t' || c == '\n' || c == '\r')

/-- Hex digit value, for `\u` escapes. -/
def hexVal (c : Char) : Option Nat :=
  if '0' ≤ c ∧ c ≤ '9' then some (c.toNat - 48)
  else if 'a' ≤ c ∧ c ≤ 'f' then some (c.toNat - 87)
  else if 'A' ≤ c ∧ c ≤ 'F' then some (c.toNat - 55)
  else none

/-- Body of a JSON string literal (after the opening quote), with the
escape sequences `JSON.parse` accepts; raw control characters are
rejected as in JSON. -/
def pStrBody : Nat → List Char → List Char → Option (String × List Char)
  | 0, _, _ => none
  | f + 1, acc, cs =>
    match cs with
    | [] => none
    | '"' :: rest => some (String.mk acc.reverse, rest)
    | '\\' :: e :: rest =>
      if e = '"' then pStrBody f ('"' :: acc) rest
      else if e = '\\' then pStrBody f ('\\' :: acc) rest
      else if e = '/' then pStrBody f ('/' :: acc) rest
      else if e = 'b' then pStrBody f ('\x08' :: acc) rest
      else if e = 'f' then pStrBody f ('\x0c' :: acc) rest
      else if e = 'n' then pStrBody f ('\n' :: acc) rest
      else if e = 'r' then pStrBody f ('\x0d' :: acc) rest
      else if e = 't' then pStrBody f ('\t' :: acc) rest
      else if e = 'u' then
        match rest with
        | a :: b :: c :: d :: rest' =>
          match hexVal a, hexVal b, hexVal c, hexVal d with
          | some x, some y, some z, some w =>
            pStrBody f (Char.ofNat (((x * 16 + y) * 16 + z) * 16 + w) :: acc) rest'
          | _, _, _, _ => none
        | _ => none
      else none
    | c :: rest => if c.toNat < 32 then none else pStrBody f (c :: acc) rest

/-- Numeric value of a digit run. -/
def digitsToNat (ds : List Char) : Nat :=
  ds.foldl (fun n c => n * 10 + (c.toNat - 48)) 0

/-- Optional fraction part `.digits` of a JSON number. -/
def pFrac (cs : List Char) : Option (List Char × List Char) :=
  match cs with
  | '.' :: r =>
    let ds := r.takeWhile Char.isDigit
    if ds.isEmpty then none else some (ds, r.drop ds.length)
  | _ => some ([], cs)

/-- Consume an optional leading exponent sign, returning its value. -/
def expSign (r : List Char) : Int × List Char :=
  match r with
  | c :: rest => if c = '+' then (1, rest) else if c = '-' then (-1, rest) else (1, r)
  | [] => (1, [])

/-- Optional exponent part of a JSON number. -/
def pExp (cs : List Char) : Option (Int × List Char) :=
  match cs with
  | c :: r =>
    if c == 'e' || c == 'E' then
      let sp := expSign r
      let ds := sp.2.takeWhile Char.isDigit
      if ds.isEmpty then none
      else some (sp.1 * (digitsToNat ds : Int), sp.2.drop ds.length)
    else some (0, cs)
  | [] => some (0, [])

/-- JSON number (strict grammar: no leading zeros, mandatory integer
part), evaluated exactly as a rational. -/
def pNum (cs : List Char) : Option (Json × List Char) :=
  let neg : Bool := cs.headD ' ' = '-'
  let cs1 : List Char := if neg then cs.tail else cs
  let ids := cs1.takeWhile Char.isDigit
  if ids.isEmpty then none
  else if ids.length > 1 && ids.headD '0' == '0' then none
  else
    let cs2 := cs1.drop ids.length
    match pFrac cs2 with
    | none => none
    | some (fds, cs3) =>
      match pExp cs3 with
      | none => none
      | some (e, cs4) =>
        let mant : ℚ := (digitsToNat ids : ℚ) + (digitsToNat fds : ℚ) / ((10 : ℚ) ^ fds.length)
        let signed := if neg then -mant else mant
        some (Json.num (signed * (10 : ℚ) ^ e), cs4)

/-- One or more `"key": value` members of a JSON object, parameterised
by the value-parser (so the recursion stays structural on the loop's own
fuel). -/
def pMembersF (pv : List Char → Option (Json × List Char)) :
    Nat → List Char → Option (List (String × Json) × List Char)
  | 0, _ => none
  | f + 1, cs =>
    match skipWs cs with
    | '"' :: rest =>
      match pStrBody (rest.length + 1) [] rest with
      | none => none
      | some (k, r1) =>
        match skipWs r1 with
        | ':' :: r2 =>
          match pv r2 with
          | none => none
          | some (v, r3) =>
            match skipWs r3 with
            | ',' :: r4 => (pMembersF pv f r4).map (fun pr => ((k, v) :: pr.1, pr.2))
            | '}' :: r4 => some ([(k, v)], r4)
            | _ => none
        | _ => none
    | _ => none

/-- One or more elements of a JSON array, parameterised by the
value-parser. -/
def pElemsF (pv : List Char → Option (Json × List Char)) :
    Nat → List Char → Option (List Json × List Char)
  | 0, _ => none
  | f + 1, cs =>
    match pv cs with
    | none => none
    | some (v, r1) =>
      match skipWs r1 with
      | ',' :: r2 => (pElemsF pv f r2).map (fun pr => (v :: pr.1, pr.2))
      | ']' :: r2 => some ([v], r2)
      | _ => none

/-- JSON value, consuming leading whitespace.  The outer fuel bounds the
nesting depth; the member/element loops carry their own fuel bounded by
the remaining input length. -/
def pVal : Nat → List Char → Option (Json × List Char)
  | 0, _ => none
  | f + 1, cs =>
    match skipWs cs with
    | [] => none
    | '{' :: rest =>
      (match skipWs rest with
       | '}' :: r' => some (Json.obj [], r')
       | _ => (pMembersF (pVal f) (rest.length + 1) rest).map (fun pr => (Json.obj pr.1, pr.2)))
    | '[' :: rest =>
      (match skipWs rest with
       | ']' :: r' => some (Json.arr [], r')
       | _ => (pElemsF (pVal f) (rest.length + 1) rest).map (fun pr => (Json.arr pr.1, pr.2)))
    | '"' :: rest => (pStrBody (rest.length + 1) [] rest).map (fun pr => (Json.str pr.1, pr.2))
    | 't' :: 'r' :: 'u' :: 'e' :: r => some (Json.bool true, r)
    | 'f' :: 'a' :: 'l' :: 's' :: 'e' :: r => some (Json.bool false, r)
    | 'n' :: 'u' :: 'l' :: 'l' :: r => some (Json.null, r)
    | cs' => pNum cs'

/-- Model of `JSON.parse`: the whole input (modulo surrounding
whitespace) must be a single JSON value.  Fuel `2 * length + 2` is enough
because between two nested calls at the same fuel level at least one
input character is consumed. -/
def jsonParse (s : String) : Option Json :=
  match pVal (2 * s.length + 2) s.toList with
  | some (v, rest) => if skipWs rest = [] then some v else none
  | none => none

/-! ## Rate limiter (server.js lines 22-64)

`RateLimiter` keeps, per agent, an ordered array of millisecond
timestamps.  `_prune` shifts entries below `now - 60000` off the front;
`check` returns true when the limit is falsy or non-positive, otherwise
compares the pruned count; `record` appends the current time;
`getUsage` returns the pruned count.  The state is modelled as a map
from agent name to its timestamp list (`_key` is the identity, line
27-29), and the clock is an explicit argument. -/

def WINDOW_MS : Int := 60000

/-- Per-agent timestamp windows of the in-memory rate limiter. -/
def RLWindows : Type := String → List Int

/-- Fresh limiter: every agent maps to an empty window. -/
def emptyWindows : RLWindows := fun _ => []

/-- `_prune(entries, 60000)`: drop leading entries strictly below the
cutoff `now - 60000` (entries are pushed in time order, so shifting from
the front is `dropWhile`). -/
def rlPrune (now : Int) (entries : List Int) : List Int :=
  entries.dropWhile (fun t => decide (t < now - WINDOW_MS))

/-- `check(agent, limitPerMinute)`: `!limit || limit <= 0` is modelled
as `limit ≤ 0` over `Int` (JS `!0` is true). -/
def rlCheck (w : RLWindows) (now : Int) (agent : String) (limit : Int) : Bool :=
  if limit ≤ 0 then true
  else decide (((rlPrune now (w agent)).length : Int) < limit)

/-- `record(agent)`: push the current timestamp onto the agent's window. -/
def rlRecord (w : RLWindows) (now : Int) (agent : String) : RLWindows :=
  fun a => if a = agent then w a ++ [now] else w a

/-- `getUsage(agent)`: the pruned entry count. -/
def rlGetUsage (w : RLWindows) (now : Int) (agent : String) : Nat :=
  (rlPrune now (w agent)).length

/-! ## Metrics (server.js lines 71-99) -/

/-- Append-or-increment on an assoc list, modelling
`obj[key] = (obj[key] || 0) + 1` (existing key updated in place, new key
appended). -/
def bumpCount : List (String × Nat) → String → List (String × Nat)
  | [], k => [(k, 1)]
  | (k', v) :: rest, k =>
    if k' = k then (k', v + 1) :: rest else (k', v) :: bumpCount rest k

/-- Counter lookup (missing key counts as 0). -/
def countOf : List (String × Nat) → String → Nat
  | [], _ => 0
  | (k', v) :: rest, k => if k' = k then v else countOf rest k

/-- In-memory metrics counters. -/
structure Metrics where
  totalRequests : Nat := 0
  totalOk : Nat := 0
  totalErrors : Nat := 0
  byAgent : List (String × Nat) := []
  byProvider : List (String × Nat) := []
deriving DecidableEq

/-- JS object property key for `this.byAgent[agent]`: a `null` agent is
coerced to the string key `"null"`. -/
def jsKey : Option String → String
  | none => "null"
  | some s => s

/-- `metrics.record(agent, provider, status)` (lines 79-87).  The
`byProvider` bump is guarded by JS truthiness of `provider`. -/
def metricsRecord (m : Metrics) (agent : Option String) (provider : Option String)
    (status : String) : Metrics :=
  { totalRequests := m.totalRequests + 1
    totalOk := if status = "ok" then m.totalOk + 1 else m.totalOk
    totalErrors := if status = "ok" then m.totalErrors else m.totalErrors + 1
    byAgent := bumpCount m.byAgent (jsKey agent)
    byProvider :=
      if optStrTruthy provider then bumpCount m.byProvider (provider.getD "") else m.byProvider }

/-- Snapshot (lines 89-98); uptime is an oracle argument. -/
structure MetricsSnapshot where
  uptime_seconds : Int
  total_requests : Nat
  total_ok : Nat
  total_errors : Nat
  by_agent : List (String × Nat)
  by_provider : List (String × Nat)
deriving DecidableEq

def metricsSnapshot (m : Metrics) (uptime : Int) : MetricsSnapshot :=
  { uptime_seconds := uptime
    total_requests := m.totalRequests
    total_ok := m.totalOk
    total_errors := m.totalErrors
    by_agent := m.byAgent
    by_provider := m.byProvider }

/-! ## Agent policy data model and `pickProvider` (server.js 198-206) -/

/-- One agent's policy entry.  Absent JSON fields are `none`.  The code
reads `intent_routes` and `default_provider` off the object passed to
`pickProvider`, which in the server is the per-agent policy. -/
structure AgentPolicy where
  description : Option String := none
  allowed_intents : Option (List String) := none
  allowed_providers : Option (List String) := none
  default_provider : Option String := none
  fallback_chain : Option (List String) := none
  max_input_bytes : Option Int := none
  rate_limit_per_minute : Option Int := none
  intent_routes : Option (List (String × String)) := none
deriving DecidableEq

/-- The policy document: `agents` mapping plus
`global.rate_limit_per_minute` (absent when either `global` or the field
is missing). -/
structure Policy where
  agents : List (String × AgentPolicy) := []
  global_rate_limit : Option Int := none
deriving DecidableEq

/-- `pickProvider(requested, policy, intent)` (lines 198-206), with JS
truthiness on each candidate: `if (requested) return requested;
if (policy.intent_routes && policy.intent_routes[intent]) return it;
return policy.default_provider || null`. -/
def pickProvider (requested : Option String) (policy : AgentPolicy) (intent : String) :
    Option String :=
  if optStrTruthy requested then requested
  else
    let route : Option String := (policy.intent_routes.getD []).lookup intent
    if optStrTruthy route then route
    else if optStrTruthy policy.default_provider then policy.default_provider
    else none

/-- Modelled from the spec wording of `pickProvider`: "`requested` if
non-empty; else `policy.intent_routes[intent]` if set; else
`policy.default_provider`; else null", where a route or default is "set"
when it is present as a non-empty provider name (JS truthiness, the
reading exercised by the test suite). -/
def pickDefaultSpec (policy : AgentPolicy) : Option String :=
  match policy.default_provider with
  | some d => if d ≠ "" then some d else none
  | none => none

def pickRouteSpec (policy : AgentPolicy) (intent : String) : Option String :=
  match (policy.intent_routes.getD []).lookup intent with
  | some v => if v ≠ "" then some v else pickDefaultSpec policy
  | none => pickDefaultSpec policy

def pickProviderSpec (requested : Option String) (policy : AgentPolicy) (intent : String) :
    Option String :=
  match requested with
  | some r => if r ≠ "" then some r else pickRouteSpec policy intent
  | none => pickRouteSpec policy intent

/-! ## Provider invocation with fallback (server.js 238-272)

`getProvider` plus the adapter's `invoke` outcome for this request are
folded into one oracle: `none` means the registry cannot resolve the
name, `some (.ok out)` a successful invoke, `some (.error msg)` a failed
invoke. -/

/-- Registry/invoke oracle for a single request. -/
def ProviderOracle : Type := String → Option (Except String String)

structure InvokeResult where
  output : String
  provider : String
  fallback : Bool
deriving DecidableEq

/-- The fallback loop (lines 255-268): skip entries equal to the primary
or unresolvable, return the first success, otherwise accumulate
`"name: message"` strings and throw the composite error. -/
def tryFallbacks (gp : ProviderOracle) (primary : String) :
    List String → List String → Except String InvokeResult
  | [], errs => Except.error ("All providers failed: " ++ String.intercalate "; " errs)
  | name :: rest, errs =>
    if name = primary then tryFallbacks gp primary rest errs
    else
      match gp name with
      | none => tryFallbacks gp primary rest errs
      | some (Except.ok out) => Except.ok ⟨out, name, true⟩
      | some (Except.error e) => tryFallbacks gp primary rest (errs ++ [name ++ ": " ++ e])

/-- `invokeWithFallback(primaryProvider, fallbackChain, invokeArgs)`
(lines 238-272).  A `null` chain and an empty chain behave alike
(`!fallbackChain || fallbackChain.length === 0`), so the chain is a
plain list. -/
def invokeWithFallback (gp : ProviderOracle) (primary : String) (chain : List String) :
    Except String InvokeResult :=
  match gp primary with
  | some (Except.ok out) => Except.ok ⟨out, primary, false⟩
  | some (Except.error e) =>
    if chain.isEmpty then Except.error e
    else tryFallbacks gp primary chain []
  | none =>
    if chain.isEmpty then Except.error "No provider available"
    else tryFallbacks gp primary chain []

/-! ## Verify-output parsing (server.js 449-461)

The code runs `result.output.match()` with the greedy regex written as
open-brace, `[\s\S]*`, close-brace: the match, when it exists, spans
from the first open brace that has some close brace after it to the LAST
close brace of the whole string.  The parsed object then supplies
verdict / confidence / reasoning / flags with defaults. -/

/-- The greedy regex match of server.js line 451: the substring from the
first open brace through the last close brace of the string (if the last
close brace lies after that open brace), else no match. -/
def regexBraceMatch (s : String) : Option String :=
  let cs := s.toList
  match cs.findIdx? (· == '{') with
  | none => none
  | some i =>
    match cs.reverse.findIdx? (· == '}') with
    | none => none
    | some rj =>
      let j := cs.length - 1 - rj
      if i < j then some (String.mk ((cs.drop i).take (j - i + 1))) else none

/-- First balanced brace-delimited substring (depth-counting scan), the
extraction the spec describes for the verify endpoint. -/
def fbAux : List Char → Nat → List Char → Option String
  | [], _, _ => none
  | c :: rest, 0, _ =>
    if c == '{' then fbAux rest 1 [c] else fbAux rest 0 []
  | c :: rest, d + 1, acc =>
    if c == '{' then fbAux rest (d + 2) (c :: acc)
    else if c == '}' then
      match d with
      | 0 => some (String.mk (c :: acc).reverse)
      | d' + 1 => fbAux rest (d' + 1) (c :: acc)
    else fbAux rest (d + 1) (c :: acc)

/-- Modelled from the spec: "Parses the first balanced brace-delimited
substring from the model output" — the balanced-brace scan the design
notes prescribe (the source instead uses the greedy regex above). -/
def firstBalanced (s : String) : Option String := fbAux s.toList 0 []

/-- The structured verification fields the verify endpoint derives from
the model output. -/
structure VerifyOutcome where
  verdict : String
  confidence : ℚ
  reasoning : String
  flags : List Json

def allowedVerdicts : List String := ["true", "false", "unverified", "conflicting"]

/-- Lines 449-461 parameterised by the extraction step: defaults
`verdict="unverified", confidence=0.5, reasoning=raw output, flags=[]`
survive when there is no match or `JSON.parse` fails; otherwise the
verdict collapses to `"unverified"` unless recognised, the confidence is
`Math.min(1, Math.max(0, c))` when numeric (else 0.5), reasoning must be
a string (else the raw output), flags an array (else empty). -/
def verifyParseWith (extract : String → Option String) (output : String) : VerifyOutcome :=
  let dflt : VerifyOutcome := ⟨"unverified", (1 : ℚ) / 2, output, []⟩
  match extract output with
  | none => dflt
  | some m =>
    match jsonParse m with
    | none => dflt
    | some parsed =>
      { verdict :=
          match parsed.getField "verdict" with
          | some (Json.str v) => if v ∈ allowedVerdicts then v else "unverified"
          | _ => "unverified"
        confidence :=
          match parsed.getField "confidence" with
          | some (Json.num q) => min 1 (max 0 q)
          | _ => (1 : ℚ) / 2
        reasoning :=
          match parsed.getField "reasoning" with
          | some (Json.str r) => r
          | _ => output
        flags :=
          match parsed.getField "flags" with
          | some (Json.arr xs) => xs
          | _ => [] }

/-- The verify parsing as the source implements it (greedy regex
extraction). -/
def verifyParse (output : String) : VerifyOutcome :=
  verifyParseWith regexBraceMatch output

/-- The verify parsing as the spec words it (first balanced substring). -/
def verifyParseBalancedSpec (output : String) : VerifyOutcome :=
  verifyParseWith firstBalanced output

/-! ## Request payloads and `validateRequest` (server.js 216-233) -/

/-- A JSON field as `validateRequest` sees it: absent (or any falsy
non-string), a string, or present with a non-string type. -/
inductive JsField where
  | absent : JsField
  | str (s : String) : JsField
  | other : JsField
deriving DecidableEq

def JsField.getStr : JsField → String
  | JsField.str s => s
  | _ => ""

/-- The `context` field: absent/falsy, an object, or a truthy
non-object. -/
inductive CtxField where
  | absent : CtxField
  | obj : CtxField
  | other : CtxField
deriving DecidableEq

/-- The `/v1/agent` request body after `JSON.parse`. -/
structure AgentPayload where
  agent : JsField := JsField.absent
  intent : JsField := JsField.absent
  input : JsField := JsField.absent
  context : CtxField := CtxField.absent
  provider : Option String := none
deriving DecidableEq

/-- `validateRequest(payload)` (lines 216-233): `none` is a valid
payload, `some msg` the validation error.  A `none` argument models a
falsy or non-object parse result.  Note the source checks
`!payload.agent || typeof payload.agent !== 'string'` — an empty-string
agent is falsy and yields "Missing agent" — while `input` is only
type-checked, so an empty input string is accepted. -/
def validateRequest : Option AgentPayload → Option String
  | none => some "Invalid JSON payload"
  | some p =>
    match p.agent with
    | JsField.str a =>
      if a.isEmpty then some "Missing agent"
      else
        match p.intent with
        | JsField.str i =>
          if i.isEmpty then some "Missing intent"
          else
            match p.input with
            | JsField.str _ =>
              match p.context with
              | CtxField.other => some "Context must be an object"
              | _ => none
            | _ => some "Missing input"
        | _ => some "Missing intent"
    | _ => some "Missing agent"

/-- The `/v1/verify` request body after `JSON.parse`
(`{ claim, sources = [], confidence_threshold = 0.7 }`). -/
structure VerifyPayload where
  claim : JsField := JsField.absent
  sources : Option (List String) := none
  confidence_threshold : Option ℚ := none
deriving DecidableEq

/-- `isLoopback(req)` (lines 143-150) on the remote address string
(empty when the socket reports none). -/
def isLoopback (addr : String) : Bool :=
  addr = "127.0.0.1" || addr = "::1" || strStartsWith addr "::ffff:127."

/-- Security-claim routing test of the verify endpoint (line 409): the
case-insensitive alternation over the eight keywords. -/
def isSecurityClaim (claim : String) : Bool :=
  let l := strLower claim
  ["password", "secret", "key", "token", "vulnerability", "exploit", "breach", "hack"].any
    (fun w => strContainsSub l w)

/-- The effective per-agent rate limit (lines 541-542):
`agentPolicy.rate_limit_per_minute || policy.global.rate_limit_per_minute
|| 0` with JS truthiness, so an explicit agent value of 0 falls through
to the global default. -/
def effectiveRateLimit (agentLimit globalLimit : Option Int) : Int :=
  match agentLimit with
  | some v =>
    if v ≠ 0 then v
    else
      match globalLimit with
      | some w => if w ≠ 0 then w else 0
      | none => 0
  | none =>
    match globalLimit with
    | some w => if w ≠ 0 then w else 0
    | none => 0

/-- The rate-limiting gate at line 543: `agentLimit > 0 &&
!rateLimiter.check(agentName, agentLimit)`. -/
def rateLimited (limit : Int) (w : RLWindows) (now : Int) (agent : String) : Bool :=
  decide (0 < limit) && !(rlCheck w now agent limit)

/-! ## HTTP request/response model (server.js 284-660)

Oracles (file contents, provider outcomes, clocks, UUIDs) are inputs of
the handler; the rate limiter and metrics are threaded state.  Each
request produces exactly one response because the handler below is a
total function. -/

/-- Endpoint-specific content of successful envelopes (health roster,
metrics snapshot, proxied worlds data, memory stats, provider list). -/
structure RosterRow where
  name : String
  description : String
  intents : List String
  providers : List String
  default_provider : Option String
  rate_limit : Option Int
  usage_last_minute : Nat
deriving DecidableEq

inductive ExtraData where
  | none : ExtraData
  | health (providers : List String) (agents : Nat) (uptime : ℚ) (timestamp : String) : ExtraData
  | metricsSnap (snap : MetricsSnapshot) : ExtraData
  | roster (rows : List RosterRow) : ExtraData
  | worlds (data : Json) : ExtraData
  | memStats (data : Json) : ExtraData
  | memRecent (entries : List Json) : ExtraData
  | providersList (names : List String) : ExtraData

/-- The JSON response envelope; absent fields are `none`. -/
structure ResponsePayload where
  status : String
  error : Option String := Option.none
  output : Option String := Option.none
  provider : Option String := Option.none
  requestId : Option String := Option.none
  metaLatency : Option Int := Option.none
  metaFallback : Option Bool := Option.none
  metaLimit : Option Int := Option.none
  metaRetryAfter : Option Int := Option.none
  verdict : Option String := Option.none
  confidence : Option ℚ := Option.none
  reasoning : Option String := Option.none
  agentUsed : Option String := Option.none
  sourcesChecked : Option Nat := Option.none
  flags : Option (List Json) := Option.none
  timestamp : Option String := Option.none
  extra : ExtraData := ExtraData.none

structure Response where
  code : Nat
  payload : ResponsePayload

/-- The `send` helper (lines 294-302): when the payload's status is
"error" and `output` is not a string, `output` is forced to the empty
string before the envelope is written. -/
def sendPatch (p : ResponsePayload) : ResponsePayload :=
  if p.status = "error" ∧ p.output = Option.none then { p with output := some "" } else p

/-- Gateway configuration fields the handler branches on. -/
structure GatewayConfig where
  allowRemote : Bool := false
  maxBodyBytes : Nat := 1048576
deriving DecidableEq

/-- One HTTP request: the raw routing data plus the parses of its body
(`none` models a `JSON.parse` failure). -/
structure Request where
  method : String
  url : String
  remoteAddress : String
  bodySize : Nat := 0
  agentBody : Option AgentPayload := Option.none
  verifyBody : Option VerifyPayload := Option.none

/-- Per-request environment: configuration plus the oracle outcomes of
every external effect the handler consults.  `policyLoad` is the result
of `loadPolicy` (which throws when the file is missing or lacks
`agents`); `providers` folds `getProvider` and each adapter's `invoke`
outcome for this request's arguments; `now`/`nowEnd`/`nowIso`/`uuid`
fix the clocks and the request id. -/
structure Env where
  config : GatewayConfig := {}
  policyLoad : Except String Policy := Except.error "Policy file missing or invalid"
  providers : ProviderOracle := fun _ => Option.none
  providerList : List String := []
  worldsResult : Option Json := Option.none
  memStatsData : Json := Json.null
  memRecentData : List Json := []
  uptimeSeconds : Int := 0
  processUptime : ℚ := 0
  now : Int := 0
  nowEnd : Int := 0
  nowIso : String := ""
  uuid : String := ""
  journalFails : Bool := false
  logFails : Bool := false

/-- What the try/catch part of the handler produced, before the finally
block: the response (pre-`send` patch), the handler-scope variables the
finally block reads, and the rate-limiter state after the request. -/
structure TryResult where
  code : Nat
  payload : ResponsePayload
  agentName : Option String := Option.none
  intent : Option String := Option.none
  providerName : Option String := Option.none
  rl : RLWindows
  verifyJournaled : Bool := false

/-- Error envelope with no extra fields. -/
def errP (e : String) : ResponsePayload := { status := "error", error := some e }

/-- The outer catch block (lines 607-617): 500 envelope with
`error.message || 'Gateway error'`, the request id, latency metadata and
the provider when one was chosen. -/
def catch500 (env : Env) (rl : RLWindows) (agent intent prov : Option String)
    (e : String) : TryResult :=
  { code := 500
    payload :=
      { status := "error"
        error := some (if e.isEmpty then "Gateway error" else e)
        requestId := some env.uuid
        metaLatency := some (env.nowEnd - env.now)
        provider := if optStrTruthy prov then prov else Option.none }
    agentName := agent
    intent := intent
    providerName := prov
    rl := rl }

/-- URL pathname: the part before any query or fragment (what
`new URL(req.url, base).pathname` yields for the gateway's paths). -/
def pathnameOf (u : String) : String :=
  String.mk (u.toList.takeWhile (fun c => !(c == '?' || c == '#')))

/-- The post-validation part of the `/v1/verify` handler (server.js
lines 408-487): security routing of the claim, policy lookup, provider
choice, dispatch and envelope construction.  Returns (status code,
payload, whether a verify journal record was launched). -/
def verifyCore (policyLoad : Except String Policy) (gp : ProviderOracle)
    (nowIso : String) (c : String) (sources : List String) :
    Nat × ResponsePayload × Bool :=
  let isSec := isSecurityClaim c
  let aName := if isSec then "cipher" else "prism"
  let vIntent := if isSec then "audit" else "analyze"
  match policyLoad with
  | Except.error e =>
    (502, errP (if e.isEmpty then "verify failed" else e), false)
  | Except.ok policy =>
    match policy.agents.lookup aName with
    | Option.none =>
      -- `policy.agents[agentName]` is undefined; `pickProvider`
      -- dereferences `.intent_routes` on it and throws a TypeError.
      (502, errP "Cannot read properties of undefined", false)
    | some ap =>
      match pickProvider Option.none ap vIntent with
      | Option.none => (503, errP "No provider available for verification", false)
      | some pname =>
        match invokeWithFallback gp pname (ap.fallback_chain.getD []) with
        | Except.error e =>
          (502, errP (if e.isEmpty then "verify failed" else e), false)
        | Except.ok r =>
          let vo := verifyParse r.output
          (200,
           { status := "ok"
             verdict := some vo.verdict
             confidence := some vo.confidence
             reasoning := some vo.reasoning
             agentUsed := some aName
             sourcesChecked := some sources.length
             flags := some vo.flags
             timestamp := some nowIso },
           true)

/-- The `/v1/verify` handler body (lines 394-488).  Its whole body sits
in its own try/catch mapping any thrown error to a 502 envelope with
`e.message || 'verify failed'`.  The local `agentName`/`intent` consts
shadow the handler-scope variables, which therefore stay `null` for
verify requests.  The function's arguments are exactly the request data
the code reads on this path: body size (read with a 65536 cap), the
parsed body, the policy-load outcome, the provider oracle, and the
timestamp; notably neither the remote address, nor `allowRemote`, nor
the rate limiter, nor the routed agent's `allowed_intents` appear. -/
def verifyFlow (policyLoad : Except String Policy) (gp : ProviderOracle)
    (nowIso : String) (bodySize : Nat) (vbody : Option VerifyPayload) :
    Nat × ResponsePayload × Bool :=
  if bodySize > 65536 then (502, errP "Request body too large", false)
  else
    match vbody with
    | Option.none => (400, errP "Invalid JSON", false)
    | some vp =>
      match vp.claim with
      | JsField.str c =>
        if c.trim.isEmpty then (400, errP "claim is required", false)
        else verifyCore policyLoad gp nowIso c (vp.sources.getD [])
      | _ => (400, errP "claim is required", false)

/-- The `/v1/agent` pipeline (lines 497-606) plus the outer catch for
the errors it can throw (body overrun, policy-load failure, provider
failure). -/
def agentFlow (env : Env) (req : Request) (rl0 : RLWindows) : TryResult :=
  if !env.config.allowRemote && !isLoopback req.remoteAddress then
    { code := 403, payload := { errP "Remote access denied" with requestId := some env.uuid }
      rl := rl0 }
  else if req.bodySize > env.config.maxBodyBytes then
    -- readBody rejects; the outer catch turns it into a 500 envelope
    catch500 env rl0 Option.none Option.none Option.none "Request body too large"
  else
    match req.agentBody with
    | Option.none =>
      { code := 400, payload := { errP "Invalid JSON" with requestId := some env.uuid }
        rl := rl0 }
    | some payload =>
      match validateRequest (some payload) with
      | some msg =>
        { code := 400, payload := { errP msg with requestId := some env.uuid }, rl := rl0 }
      | Option.none =>
        let agentName := payload.agent.getStr
        let intent := payload.intent.getStr
        let input := payload.input.getStr
        match env.policyLoad with
        | Except.error e =>
          catch500 env rl0 (some agentName) (some intent) Option.none e
        | Except.ok policy =>
          match policy.agents.lookup agentName with
          | Option.none =>
            { code := 403
              payload := { errP "Agent not allowed" with requestId := some env.uuid }
              agentName := some agentName, intent := some intent, rl := rl0 }
          | some ap =>
            if !(match ap.allowed_intents with
                 | some l => decide (intent ∈ l)
                 | Option.none => false) then
              { code := 403
                payload := { errP "Intent not allowed" with requestId := some env.uuid }
                agentName := some agentName, intent := some intent, rl := rl0 }
            else if (match ap.max_input_bytes with
                     | some m => decide (m ≠ 0) && decide ((input.utf8ByteSize : Int) > m)
                     | Option.none => false) then
              { code := 413
                payload := { errP "Input too large" with requestId := some env.uuid }
                agentName := some agentName, intent := some intent, rl := rl0 }
            else
              let agentLimit := effectiveRateLimit ap.rate_limit_per_minute policy.global_rate_limit
              if rateLimited agentLimit rl0 env.now agentName then
                { code := 429
                  payload :=
                    { errP "Rate limit exceeded" with
                        requestId := some env.uuid
                        metaLimit := some agentLimit
                        metaRetryAfter := some 60 }
                  agentName := some agentName, intent := some intent, rl := rl0 }
              else
                match pickProvider payload.provider ap intent with
                | Option.none =>
                  { code := 400
                    payload := { errP "Provider not configured" with requestId := some env.uuid }
                    agentName := some agentName, intent := some intent, rl := rl0 }
                | some pname =>
                  if (match ap.allowed_providers with
                      | some l => decide (pname ∉ l)
                      | Option.none => false) then
                    { code := 403
                      payload := { errP "Provider not allowed" with requestId := some env.uuid }
                      agentName := some agentName, intent := some intent, rl := rl0 }
                  else
                    match invokeWithFallback env.providers pname (ap.fallback_chain.getD []) with
                    | Except.error e =>
                      catch500 env rl0 (some agentName) (some intent) (some pname) e
                    | Except.ok r =>
                      { code := 200
                        payload :=
                          { status := "ok"
                            provider := some r.provider
                            output := some r.output
                            requestId := some env.uuid
                            metaLatency := some (env.nowEnd - env.now)
                            metaFallback := some r.fallback }
                        agentName := some agentName
                        intent := some intent
                        providerName := some r.provider
                        rl := rlRecord rl0 env.now agentName }

/-- Roster row construction for `GET /v1/agents` (lines 339-347), with
JS truthiness on `description`, `rate_limit_per_minute || null`, and the
live rate-limiter usage. -/
def rosterOf (policy : Policy) (rl : RLWindows) (now : Int) : List RosterRow :=
  policy.agents.map (fun pr =>
    { name := pr.1
      description := pr.2.description.getD ""
      intents := pr.2.allowed_intents.getD []
      providers := pr.2.allowed_providers.getD []
      default_provider :=
        if optStrTruthy pr.2.default_provider then pr.2.default_provider else Option.none
      rate_limit :=
        match pr.2.rate_limit_per_minute with
        | some v => if v ≠ 0 then some v else Option.none
        | Option.none => Option.none
      usage_last_minute := rlGetUsage rl now pr.1 })

/-- The route dispatch of the handler's try block (lines 304-617),
in source order, including each loopback gate and the outer catch for
thrown errors. -/
def routeTry (env : Env) (req : Request) (m : Metrics) (rl0 : RLWindows) : TryResult :=
  if req.method = "GET" ∧ (req.url = "/healthz" ∨ req.url = "/health") then
    { code := 200
      payload :=
        { status := "ok"
          extra := ExtraData.health env.providerList 0 env.processUptime env.nowIso }
      rl := rl0 }
  else if req.method = "GET" ∧ req.url = "/metrics" then
    if !env.config.allowRemote && !isLoopback req.remoteAddress then
      { code := 403, payload := errP "Remote access denied", rl := rl0 }
    else
      { code := 200
        payload :=
          { status := "ok"
            extra := ExtraData.metricsSnap (metricsSnapshot m env.uptimeSeconds) }
        rl := rl0 }
  else if req.method = "GET" ∧ req.url = "/v1/agents" then
    if !env.config.allowRemote && !isLoopback req.remoteAddress then
      { code := 403, payload := errP "Remote access denied", rl := rl0 }
    else
      match env.policyLoad with
      | Except.error e => catch500 env rl0 Option.none Option.none Option.none e
      | Except.ok policy =>
        { code := 200
          payload := { status := "ok", extra := ExtraData.roster (rosterOf policy rl0 env.now) }
          rl := rl0 }
  else if req.method = "GET" ∧ req.url = "/v1/worlds" then
    match env.worldsResult with
    | some data =>
      { code := 200, payload := { status := "ok", extra := ExtraData.worlds data }, rl := rl0 }
    | Option.none =>
      { code := 502, payload := errP "worlds feed unavailable", rl := rl0 }
  else if req.method = "GET" ∧ strStartsWith req.url "/v1/memory" then
    if !env.config.allowRemote && !isLoopback req.remoteAddress then
      { code := 403, payload := errP "Remote access denied", rl := rl0 }
    else if pathnameOf req.url = "/v1/memory/recent" then
      { code := 200
        payload := { status := "ok", extra := ExtraData.memRecent env.memRecentData }
        rl := rl0 }
    else
      { code := 200
        payload := { status := "ok", extra := ExtraData.memStats env.memStatsData }
        rl := rl0 }
  else if req.method = "GET" ∧ req.url = "/v1/providers" then
    if !env.config.allowRemote && !isLoopback req.remoteAddress then
      { code := 403, payload := errP "Remote access denied", rl := rl0 }
    else
      { code := 200
        payload := { status := "ok", extra := ExtraData.providersList env.providerList }
        rl := rl0 }
  else if req.method = "POST" ∧ req.url = "/v1/verify" then
    let v := verifyFlow env.policyLoad env.providers env.nowIso req.bodySize req.verifyBody
    { code := v.1, payload := v.2.1, rl := rl0, verifyJournaled := v.2.2 }
  else if req.method ≠ "POST" ∨ req.url ≠ "/v1/agent" then
    { code := 404, payload := { errP "Not found" with requestId := some env.uuid }, rl := rl0 }
  else
    agentFlow env req rl0

/-! ## The finally block (server.js 618-659)

Line 630 computes `duration_ms: Date.now() - startMs`, but no
binding named `startMs` exists anywhere in scope (the handler's start
time is `startTime`, line 285).  Under `'use strict'` evaluating the
identifier throws a ReferenceError, which fires before `memory.record`
is called and propagates out of the finally block (rejecting the
handler's promise), skipping the journal append and the access-log
append.  `metrics.record` (line 620) has already run by then.  The
identifiers actually in scope at line 630 are listed below. -/

def handlerLocals : List String :=
  ["http", "randomUUID", "fs", "path", "getProvider", "listProviders", "memory",
   "DEFAULT_CONFIG", "RateLimiter", "rateLimiter", "metrics", "loadJson",
   "readEnvConfig", "mergeConfig", "isLoopback", "buildSystemPrompt", "readBody",
   "appendLog", "pickProvider", "loadPolicy", "validateRequest", "invokeWithFallback",
   "start", "configFilePath", "fileConfig", "config", "server", "req", "res",
   "startTime", "requestId", "agentName", "intent", "providerName", "status",
   "responsePayload", "requestPayload", "send", "require", "module", "process",
   "console", "Date", "JSON", "Buffer", "Error", "URL", "fetch", "Math", "Promise",
   "Object", "Array", "String", "Number", "parseInt", "crypto"]

/-- Outcome of the finally block for one request. -/
structure FinallyResult where
  metricsRecorded : Bool
  journalAttempted : Bool
  journalAppended : Bool
  logAttempted : Bool
  logAppended : Bool
  escapedError : Option String
deriving DecidableEq

/-- The finally block (lines 618-659) given the identifiers in scope:
metrics are recorded first; when an agent name was identified the
journal step evaluates `Date.now() - startMs`, which throws when
`startMs` is not in scope; a successful `memory.record` swallows its own
failure via `.catch`, and the access-log append swallows its failure via
try/catch. -/
def finallyBlock (locals : List String) (agentName : Option String)
    (journalFails logFails : Bool) : FinallyResult :=
  if agentName.isSome then
    if locals.contains "startMs" then
      { metricsRecorded := true, journalAttempted := true
        journalAppended := !journalFails, logAttempted := true
        logAppended := !logFails, escapedError := Option.none }
    else
      { metricsRecorded := true, journalAttempted := false, journalAppended := false
        logAttempted := false, logAppended := false
        escapedError := some "ReferenceError: startMs is not defined" }
  else
    { metricsRecorded := true, journalAttempted := false, journalAppended := false
      logAttempted := true, logAppended := !logFails, escapedError := Option.none }

/-- Everything a request leaves behind: the response written by `send`,
the handler-scope variables, the rate-limiter and metrics state, and the
finally block's outcome. -/
structure HandlerResult where
  response : Response
  agentName : Option String
  intent : Option String
  providerName : Option String
  status : String
  rlState : RLWindows
  verifyJournaled : Bool
  metricsOut : Metrics
  fin : FinallyResult

/-- The complete request handler (lines 284-660): route dispatch, the
`send` output patch, then the finally block (metrics tick, journal
attempt, access-log attempt). -/
def handle (env : Env) (req : Request) (m : Metrics) (rl0 : RLWindows) : HandlerResult :=
  let t := routeTry env req m rl0
  let payload := sendPatch t.payload
  let status := payload.status
  { response := ⟨t.code, payload⟩
    agentName := t.agentName
    intent := t.intent
    providerName := t.providerName
    status := status
    rlState := t.rl
    verifyJournaled := t.verifyJournaled
    metricsOut := metricsRecord m t.agentName t.providerName status
    fin := finallyBlock handlerLocals t.agentName env.journalFails env.logFails }

/-! ## C5: provider selection precedence -/

/-- C5: for every requested provider name, agent policy and intent,
`pickProvider` returns the requested name if it is non-empty; otherwise
the policy's `intent_routes` entry for the intent if one is set;
otherwise the policy's `default_provider`; otherwise null ("set" read as
JS-truthy, i.e. present as a non-empty name, the reading the test suite
exercises). -/
theorem pickProvider_matches_spec (requested : Option String) (policy : AgentPolicy)
    (intent : String) :
    pickProvider requested policy intent = pickProviderSpec requested policy intent := by
  rcases requested with _ | r <;>
    rcases hr : (policy.intent_routes.getD []).lookup intent with _ | v <;>
      rcases hd : policy.default_provider with _ | d <;>
        simp only [pickProvider, pickProviderSpec, pickRouteSpec, pickDefaultSpec, optStrTruthy,
          hr, hd] <;>
        (repeat' split) <;>
        (first
          | rfl
          | simp_all [← String.isEmpty_iff])

/-! ## C4: empty fallback chain -/

/-- C4: with an empty (or absent) fallback chain, `invokeWithFallback`
fails with exactly the primary provider's own error when the primary
resolves and its invoke fails, and with "No provider available" when the
primary does not resolve; in neither case is the composite
"All providers failed" form produced (the results below are exact). -/
theorem invokeWithFallback_empty_chain (gp : ProviderOracle) (primary : String) :
    (∀ e, gp primary = some (Except.error e) →
      invokeWithFallback gp primary [] = Except.error e)
    ∧ (gp primary = Option.none →
      invokeWithFallback gp primary [] = Except.error "No provider available") := by
  constructor
  · intro e h
    simp [invokeWithFallback, h]
  · intro h
    simp [invokeWithFallback, h]

/-- Oracle for the C4 witness: provider "p" resolves and fails,
everything else is unresolvable. -/
def gpC4 : ProviderOracle := fun n => if n = "p" then some (Except.error "boom") else Option.none

/-- Witness for C4 at a concrete oracle. -/
theorem invokeWithFallback_empty_chain_witness :
    invokeWithFallback gpC4 "p" [] = Except.error "boom"
    ∧ invokeWithFallback gpC4 "q" [] = Except.error "No provider available" :=
  ⟨(invokeWithFallback_empty_chain gpC4 "p").1 "boom" rfl,
   (invokeWithFallback_empty_chain gpC4 "q").2 rfl⟩

/-! ## C3: composite error of an exhausted fallback chain -/

/-- Oracle for the C3 counterexample: primary "a" fails with "ea",
fallback "b" fails with "eb". -/
def gpC3 : ProviderOracle := fun n =>
  if n = "a" then some (Except.error "ea")
  else if n = "b" then some (Except.error "eb")
  else Option.none

/-- Counterexample to C3: the primary "a" resolves and fails with "ea",
the fallback chain ["b"] is non-empty and its only member fails with
"eb", yet the composite error lists only "b: eb" — the attempted
primary's own error "a: ea" does not appear in the message. -/
theorem invokeWithFallback_primary_missing_counterexample :
    invokeWithFallback gpC3 "a" ["b"] = Except.error "All providers failed: b: eb"
    ∧ strContainsSub "All providers failed: b: eb" "b: eb" = true
    ∧ strContainsSub "All providers failed: b: eb" "a: ea" = false := by
  refine ⟨rfl, by decide, by decide⟩

/-- Accumulator lemma for the fallback loop: when every chain entry is
distinct from the primary and fails, the loop throws the composite error
over the accumulated prefix and the chain's own messages. -/
theorem tryFallbacks_all_fail (gp : ProviderOracle) (primary : String) (em : String → String) :
    ∀ (chain : List String) (errs : List String),
      (∀ n ∈ chain, n ≠ primary ∧ gp n = some (Except.error (em n))) →
      tryFallbacks gp primary chain errs =
        Except.error ("All providers failed: " ++
          String.intercalate "; " (errs ++ chain.map (fun n => n ++ ": " ++ em n))) := by
  intro chain
  induction chain with
  | nil => intro errs _; simp [tryFallbacks]
  | cons name rest ih =>
    intro errs h
    have hn := h name (List.mem_cons_self name rest)
    have hrest : ∀ n ∈ rest, n ≠ primary ∧ gp n = some (Except.error (em n)) :=
      fun n hm => h n (List.mem_cons_of_mem name hm)
    simp only [tryFallbacks, hn.2, if_neg hn.1]
    rw [ih (errs ++ [name ++ ": " ++ em name]) hrest]
    simp

/-- C3 amended: when the primary resolves but fails and every member of
the non-empty fallback chain also fails, `invokeWithFallback` fails with
the composite error joining "name: message" for each attempted FALLBACK
provider with "; " — the primary, although attempted, is not listed and
its error is discarded. -/
theorem invokeWithFallback_all_fail_amended (gp : ProviderOracle) (primary e0 : String)
    (em : String → String) (chain : List String)
    (hp : gp primary = some (Except.error e0))
    (hne : chain ≠ [])
    (hall : ∀ n ∈ chain, n ≠ primary ∧ gp n = some (Except.error (em n))) :
    invokeWithFallback gp primary chain =
      Except.error ("All providers failed: " ++
        String.intercalate "; " (chain.map (fun n => n ++ ": " ++ em n))) := by
  have hch : chain.isEmpty = false := by
    cases chain with
    | nil => exact absurd rfl hne
    | cons a l => rfl
  simp only [invokeWithFallback, hp, hch, Bool.false_eq_true, if_false]
  have := tryFallbacks_all_fail gp primary em chain [] hall
  simpa using this

/-- Witness for the amended C3 at the concrete oracle. -/
theorem invokeWithFallback_all_fail_amended_witness :
    invokeWithFallback gpC3 "a" ["b"] = Except.error "All providers failed: b: eb" := by
  have h := invokeWithFallback_all_fail_amended gpC3 "a" "ea"
    (fun n => if n = "b" then "eb" else "") ["b"] rfl (by simp)
    (by intro n hn; simp at hn; subst hn; exact ⟨by decide, rfl⟩)
  simpa using h

/-! ## C6: rate limiter counting within one window -/

/-- Entries all inside the window are not pruned. -/
theorem rlPrune_of_fresh (now : Int) (l : List Int)
    (h : ∀ t ∈ l, now - WINDOW_MS ≤ t) : rlPrune now l = l := by
  unfold rlPrune
  cases l with
  | nil => rfl
  | cons a rest =>
    have ha : ¬(a < now - WINDOW_MS) := not_lt.mpr (h a (List.mem_cons_self a rest))
    simp [List.dropWhile, ha]

/-- Recording a sequence of timestamps appends them, in order, to the
agent's window and leaves other agents untouched. -/
theorem rlRecord_foldl (agent : String) (ts : List Int) :
    ∀ w : RLWindows, (ts.foldl (fun w t => rlRecord w t agent) w) agent = w agent ++ ts := by
  induction ts with
  | nil => intro w; simp
  | cons t rest ih =>
    intro w
    have step : (rlRecord w t agent) agent = w agent ++ [t] := by simp [rlRecord]
    calc (List.foldl (fun w t => rlRecord w t agent) (rlRecord w t agent) rest) agent
        = (rlRecord w t agent) agent ++ rest := ih (rlRecord w t agent)
      _ = (w agent ++ [t]) ++ rest := by rw [step]
      _ = w agent ++ (t :: rest) := by simp

/-- C6: for any sequence of `record` calls for one agent, all within a
single 60-second window of the query time, `getUsage` equals the number
of calls; for positive limits `check` is true iff that usage is strictly
below the limit; and `check` with limit 0 is true regardless. -/
theorem rateLimiter_window_counts (agent : String) (ts : List Int) (now limit : Int)
    (hwin : ∀ t ∈ ts, now - WINDOW_MS ≤ t) :
    rlGetUsage (ts.foldl (fun w t => rlRecord w t agent) emptyWindows) now agent = ts.length
    ∧ (0 < limit →
        rlCheck (ts.foldl (fun w t => rlRecord w t agent) emptyWindows) now agent limit =
          decide ((ts.length : Int) < limit))
    ∧ rlCheck (ts.foldl (fun w t => rlRecord w t agent) emptyWindows) now agent 0 = true := by
  have hw : (ts.foldl (fun w t => rlRecord w t agent) emptyWindows) agent = ts := by
    have := rlRecord_foldl agent ts emptyWindows
    simpa [emptyWindows] using this
  have hprune : rlPrune now ((ts.foldl (fun w t => rlRecord w t agent) emptyWindows) agent) = ts := by
    rw [hw]; exact rlPrune_of_fresh now ts hwin
  refine ⟨?_, ?_, ?_⟩
  · unfold rlGetUsage
    rw [hprune]
  · intro hpos
    unfold rlCheck
    rw [if_neg (not_le.mpr hpos), hprune]
  · unfold rlCheck
    simp

/-- Witness for C6: three recorded calls at times 10, 20, 30 queried at
time 100 with limit 3. -/
theorem rateLimiter_window_counts_witness :
    rlGetUsage ([10, 20, 30].foldl (fun w t => rlRecord w t "a") emptyWindows) 100 "a" = 3
    ∧ rlCheck ([10, 20, 30].foldl (fun w t => rlRecord w t "a") emptyWindows) 100 "a" 3 =
        decide ((3 : Int) < 3)
    ∧ rlCheck ([10, 20, 30].foldl (fun w t => rlRecord w t "a") emptyWindows) 100 "a" 0 = true := by
  have h := rateLimiter_window_counts "a" [10, 20, 30] 100 3 (by decide)
  exact ⟨h.1, h.2.1 (by decide), h.2.2⟩

/-! ## C7: verify-output extraction and parsing -/

/-- A model output consisting of a valid verdict object followed by a
stray close brace.  The first balanced brace substring is the valid
object; the source's greedy regex instead matches through the trailing
brace and `JSON.parse` fails on it. -/
def strayBraceOutput : String :=
  "\x7b\"verdict\":\"true\",\"confidence\":1,\"reasoning\":\"a\",\"flags\":[]\x7d \x7d"

/-- Counterexample to C7: the verify parsing does NOT extract the first
balanced brace substring.  On `strayBraceOutput` the code's greedy regex
match fails to parse, so the response collapses to the defaults
(verdict "unverified", confidence 0.5, reasoning = raw output), whereas
the first balanced substring parses and carries verdict "true". -/
theorem verify_extraction_counterexample :
    (verifyParse strayBraceOutput).verdict = "unverified"
    ∧ (verifyParse strayBraceOutput).confidence = (1 : ℚ) / 2
    ∧ (verifyParse strayBraceOutput).reasoning = strayBraceOutput
    ∧ (verifyParse strayBraceOutput).flags = []
    ∧ (verifyParseBalancedSpec strayBraceOutput).verdict = "true"
    ∧ regexBraceMatch strayBraceOutput ≠ firstBalanced strayBraceOutput :=
  ⟨rfl, rfl, rfl, rfl, rfl, by decide⟩

/-- C7 amended: the verify endpoint extracts the greedy regex match
(from the first open brace through the LAST close brace of the model
output, not the first balanced substring) and parses it; when there is
no match or the match fails to parse as JSON, the response has verdict
"unverified", confidence 0.5, reasoning equal to the raw model output
and flags []; in every case the confidence lies in [0,1] and the
verdict is one of "true"/"false"/"unverified"/"conflicting". -/
theorem verify_parse_amended (out : String) :
    ((regexBraceMatch out).bind jsonParse = Option.none →
      verifyParse out = ⟨"unverified", (1 : ℚ) / 2, out, []⟩)
    ∧ 0 ≤ (verifyParse out).confidence
    ∧ (verifyParse out).confidence ≤ 1
    ∧ (verifyParse out).verdict ∈ allowedVerdicts := by
  unfold verifyParse verifyParseWith
  cases hx : regexBraceMatch out with
  | none =>
    dsimp only
    refine ⟨fun _ => rfl, by norm_num, by norm_num, by simp [allowedVerdicts]⟩
  | some mstr =>
    dsimp only
    cases hj : jsonParse mstr with
    | none =>
      dsimp only
      refine ⟨fun _ => rfl, by norm_num, by norm_num, by simp [allowedVerdicts]⟩
    | some parsed =>
      dsimp only
      refine ⟨fun hcontra => ?_, ?_, ?_, ?_⟩
      · exfalso
        rw [show ((some mstr).bind jsonParse) = jsonParse mstr from rfl, hj] at hcontra
        exact Option.noConfusion hcontra
      · split
        · exact le_inf (by norm_num) le_sup_left
        · norm_num
      · split
        · exact inf_le_left
        · norm_num
      · split
        · split
          · assumption
          · simp [allowedVerdicts]
        · simp [allowedVerdicts]

/-- Witness for the amended C7 at a brace-free output (defaults) —
discharging the implication's hypothesis concretely. -/
theorem verify_parse_amended_witness :
    verifyParse "plain text answer" =
      ⟨"unverified", (1 : ℚ) / 2, "plain text answer", []⟩
    ∧ 0 ≤ (verifyParse "plain text answer").confidence :=
  ⟨(verify_parse_amended "plain text answer").1 rfl,
   (verify_parse_amended "plain text answer").2.1⟩

/-! ## C2: explicit zero rate limit -/

/-- Agent policy that explicitly disables its own rate limit with 0. -/
def aliceAP : AgentPolicy :=
  { allowed_intents := some ["analyze"]
    default_provider := some "ollama"
    rate_limit_per_minute := some 0 }

/-- Policy document with a global rate limit of 1 per minute. -/
def zeroLimitPolicy : Policy :=
  { agents := [("alice", aliceAP)], global_rate_limit := some 1 }

def envC2 : Env :=
  { policyLoad := Except.ok zeroLimitPolicy, now := 1000, nowEnd := 1000, uuid := "rid-2" }

def reqC2 : Request :=
  { method := "POST", url := "/v1/agent", remoteAddress := "127.0.0.1"
    agentBody := some
      { agent := JsField.str "alice", intent := JsField.str "analyze"
        input := JsField.str "hi" } }

/-- One prior recorded call for "alice" inside the current window. -/
def rlC2 : RLWindows := rlRecord emptyWindows 1000 "alice"

/-- Counterexample to C2: the agent policy explicitly sets
`rate_limit_per_minute` to 0, yet after a single prior recorded call the
request is rejected with 429 — JS `||` makes the explicit 0 fall through
to the global default of 1, so rate limiting is NOT disabled. -/
theorem rate_limit_zero_counterexample :
    aliceAP.rate_limit_per_minute = some 0
    ∧ zeroLimitPolicy.global_rate_limit = some 1
    ∧ (handle envC2 reqC2 {} rlC2).response.code = 429
    ∧ (handle envC2 reqC2 {} rlC2).response.payload.error = some "Rate limit exceeded" :=
  ⟨rfl, rfl, rfl, rfl⟩

/-- C2 amended: an agent policy that sets `rate_limit_per_minute` to 0
is treated exactly as if the field were omitted — the global default
applies when it is non-zero — and rate limiting is disabled only when
the resulting effective limit is not positive; a non-zero agent value
always wins. -/
theorem rate_limit_zero_falls_through (g : Option Int) (w : RLWindows) (now : Int)
    (agent : String) :
    effectiveRateLimit (some 0) g = effectiveRateLimit Option.none g
    ∧ effectiveRateLimit (some 0) Option.none = 0
    ∧ rateLimited (effectiveRateLimit (some 0) Option.none) w now agent = false
    ∧ (∀ v : Int, v ≠ 0 → effectiveRateLimit (some v) g = v) := by
  refine ⟨?_, rfl, ?_, ?_⟩
  · simp [effectiveRateLimit]
  · simp [rateLimited, effectiveRateLimit]
  · intro v hv
    simp [effectiveRateLimit, hv]

/-- Witness for the amended C2 at concrete limits. -/
theorem rate_limit_zero_falls_through_witness :
    effectiveRateLimit (some 0) (some 7) = effectiveRateLimit Option.none (some 7)
    ∧ effectiveRateLimit (some 5) (some 7) = 5 :=
  ⟨(rate_limit_zero_falls_through (some 7) emptyWindows 0 "a").1,
   (rate_limit_zero_falls_through (some 7) emptyWindows 0 "a").2.2.2 5 (by decide)⟩

/-! ## C1: the finally block's journal/log behaviour -/

def plannerAP : AgentPolicy :=
  { allowed_intents := some ["analyze"], default_provider := some "ollama" }

def plannerPolicy : Policy := { agents := [("planner", plannerAP)] }

/-- Oracle where "ollama" succeeds with "hello". -/
def gpOllamaOk : ProviderOracle :=
  fun n => if n = "ollama" then some (Except.ok "hello") else Option.none

def envC1 : Env :=
  { policyLoad := Except.ok plannerPolicy, providers := gpOllamaOk, uuid := "rid-1" }

def reqC1 : Request :=
  { method := "POST", url := "/v1/agent", remoteAddress := "127.0.0.1"
    agentBody := some
      { agent := JsField.str "planner", intent := JsField.str "analyze"
        input := JsField.str "hi" } }

/-- C1 (code bug): evaluating the code at a request that identifies an
agent.  The response itself succeeds (200, output "hello") and
`metrics.record` runs, but no identifier `startMs` is in scope at
server.js line 630, so the finally block throws a ReferenceError before
`memory.record` is called: the agent_call journal record is NOT
appended, the access-log line is NOT appended, and the error propagates
out of the request handler — contrary to the claim.  When no agent was
identified the journal step is skipped and a failing access-log write IS
swallowed (last conjunct). -/
theorem finally_startMs_reference_error :
    handlerLocals.contains "startMs" = false
    ∧ (handle envC1 reqC1 {} emptyWindows).response.code = 200
    ∧ (handle envC1 reqC1 {} emptyWindows).response.payload.output = some "hello"
    ∧ (handle envC1 reqC1 {} emptyWindows).agentName = some "planner"
    ∧ (handle envC1 reqC1 {} emptyWindows).fin.metricsRecorded = true
    ∧ (handle envC1 reqC1 {} emptyWindows).fin.journalAttempted = false
    ∧ (handle envC1 reqC1 {} emptyWindows).fin.journalAppended = false
    ∧ (handle envC1 reqC1 {} emptyWindows).fin.logAppended = false
    ∧ (handle envC1 reqC1 {} emptyWindows).fin.escapedError =
        some "ReferenceError: startMs is not defined"
    ∧ finallyBlock handlerLocals Option.none false true =
        { metricsRecorded := true, journalAttempted := false, journalAppended := false
          logAttempted := true, logAppended := false, escapedError := Option.none } :=
  ⟨by decide, rfl, rfl, rfl, rfl, rfl, rfl, rfl, rfl, rfl⟩

/-! ## C10: metrics recorded for every request, agentless requests under "null" -/

/-- Bumping a key increments its count. -/
theorem countOf_bump (l : List (String × Nat)) (k : String) :
    countOf (bumpCount l k) k = countOf l k + 1 := by
  induction l with
  | nil => simp [bumpCount, countOf]
  | cons p rest ih =>
    obtain ⟨k', v⟩ := p
    by_cases h : k' = k <;> simp [bumpCount, countOf, h, ih]

/-- C10: `metrics.record` runs in the finally block for every HTTP
request — `total_requests` always increments — and a request that never
identifies an agent is counted in `by_agent` under the string key
"null" (so `by_agent` is not restricted to policy-defined agent names).
GET /healthz, GET /metrics and 404 requests never identify an agent. -/
theorem metrics_every_request (env : Env) (req : Request) (m : Metrics) (rl : RLWindows) :
    (handle env req m rl).metricsOut.totalRequests = m.totalRequests + 1
    ∧ ((handle env req m rl).agentName = Option.none →
        countOf (handle env req m rl).metricsOut.byAgent "null" = countOf m.byAgent "null" + 1)
    ∧ (handle env { req with method := "GET", url := "/healthz" } m rl).agentName = Option.none
    ∧ (handle env { req with method := "GET", url := "/metrics" } m rl).agentName = Option.none
    ∧ (handle env { req with method := "POST", url := "/not-found" } m rl).response.code = 404
    ∧ (handle env { req with method := "POST", url := "/not-found" } m rl).agentName =
        Option.none := by
  refine ⟨rfl, ?_, ?_, ?_, ?_, ?_⟩
  · intro h
    have h' : (routeTry env req m rl).agentName = Option.none := h
    show countOf (bumpCount m.byAgent (jsKey (routeTry env req m rl).agentName)) "null" =
      countOf m.byAgent "null" + 1
    rw [h']
    exact countOf_bump m.byAgent "null"
  · rfl
  · show (routeTry env { req with method := "GET", url := "/metrics" } m rl).agentName =
      Option.none
    unfold routeTry
    repeat' split <;> first | rfl | simp_all
  · rfl
  · rfl

/-- Witness for C10 at a concrete agentless request (GET /healthz),
discharging the "no agent identified" hypothesis. -/
theorem metrics_every_request_witness :
    countOf (handle {} { method := "GET", url := "/healthz", remoteAddress := "" } {}
      emptyWindows).metricsOut.byAgent "null" =
      countOf ({} : Metrics).byAgent "null" + 1 :=
  (metrics_every_request {} { method := "GET", url := "/healthz", remoteAddress := "" } {}
    emptyWindows).2.1 rfl

/-! ## C8: every error envelope carries an empty output string -/

/-- No pre-`send` verify payload with error status sets an output
field. -/
theorem verifyCore_error_output (pl : Except String Policy) (gp : ProviderOracle)
    (iso c : String) (src : List String) :
    (verifyCore pl gp iso c src).2.1.output = Option.none
    ∨ (verifyCore pl gp iso c src).2.1.status = "ok" := by
  unfold verifyCore
  dsimp only
  repeat' split
  all_goals exact Or.inl rfl

theorem verifyFlow_error_output (pl : Except String Policy) (gp : ProviderOracle)
    (iso : String) (bs : Nat) (vb : Option VerifyPayload) :
    (verifyFlow pl gp iso bs vb).2.1.output = Option.none
    ∨ (verifyFlow pl gp iso bs vb).2.1.status = "ok" := by
  unfold verifyFlow
  repeat' split
  all_goals first | exact verifyCore_error_output pl gp iso _ _ | exact Or.inl rfl

/-- No pre-`send` agent-pipeline payload with error status sets an
output field. -/
theorem agentFlow_error_output (env : Env) (req : Request) (rl : RLWindows) :
    (agentFlow env req rl).payload.output = Option.none
    ∨ (agentFlow env req rl).payload.status = "ok" := by
  unfold agentFlow
  dsimp only
  repeat' split
  all_goals first | exact Or.inl rfl | exact Or.inr rfl

/-- No pre-`send` payload of any route with error status sets an output
field. -/
theorem routeTry_error_output (env : Env) (req : Request) (m : Metrics) (rl : RLWindows) :
    (routeTry env req m rl).payload.output = Option.none
    ∨ (routeTry env req m rl).payload.status = "ok" := by
  unfold routeTry
  dsimp only
  repeat' split
  all_goals
    first
      | exact Or.inl rfl
      | exact Or.inr rfl
      | exact verifyFlow_error_output env.policyLoad env.providers env.nowIso
          req.bodySize req.verifyBody
      | exact agentFlow_error_output env req rl

/-- C8: for every HTTP request the handler (a total function: exactly
one response envelope per request) sends an envelope in which
`status = "error"` implies `output = ""` — the `send` helper patches a
missing output, and no error path ever sets one. -/
theorem error_envelope_empty_output (env : Env) (req : Request) (m : Metrics)
    (rl : RLWindows)
    (h : (handle env req m rl).response.payload.status = "error") :
    (handle env req m rl).response.payload.output = some "" := by
  have hro := routeTry_error_output env req m rl
  have h' : (sendPatch (routeTry env req m rl).payload).status = "error" := h
  show (sendPatch (routeTry env req m rl).payload).output = some ""
  unfold sendPatch at h' ⊢
  by_cases hc : (routeTry env req m rl).payload.status = "error"
    ∧ (routeTry env req m rl).payload.output = Option.none
  · rw [if_pos hc]
  · rw [if_neg hc] at h' ⊢
    rcases hro with hro | hro
    · exact absurd ⟨h', hro⟩ hc
    · rw [hro] at h'
      exact absurd h' (by decide)

/-- Witness for C8 at a concrete 404 request. -/
theorem error_envelope_empty_output_witness :
    (handle {} { method := "POST", url := "/missing", remoteAddress := "" } {}
      emptyWindows).response.payload.output = some "" :=
  error_envelope_empty_output {} { method := "POST", url := "/missing", remoteAddress := "" }
    {} emptyWindows rfl

/-! ## C9: the verify route ignores remote address, allowRemote, the
rate limiter and allowed_intents -/

/-- Erase an agent policy's `allowed_intents` (the only field the verify
path is claimed not to consult). -/
def scrubAP (ap : AgentPolicy) : AgentPolicy := { ap with allowed_intents := Option.none }

def scrubPolicy (p : Policy) : Policy :=
  { p with agents := p.agents.map (fun pr => (pr.1, scrubAP pr.2)) }

def scrubIntentsE : Except String Policy → Except String Policy
  | Except.error e => Except.error e
  | Except.ok p => Except.ok (scrubPolicy p)

/-- Lookup commutes with scrubbing. -/
theorem lookup_scrub (p : Policy) (n : String) :
    List.lookup n (scrubPolicy p).agents = (List.lookup n p.agents).map scrubAP := by
  show List.lookup n (p.agents.map (fun pr => (pr.1, scrubAP pr.2))) =
    (List.lookup n p.agents).map scrubAP
  induction p.agents with
  | nil => rfl
  | cons a rest ih =>
    obtain ⟨k, v⟩ := a
    by_cases h : n == k <;> simp [List.lookup, h, ih]

/-- The verify dispatch core is unchanged when every agent's
`allowed_intents` is erased: the path never consults that field. -/
theorem verifyCore_scrub (p : Policy) (gp : ProviderOracle) (iso c : String)
    (src : List String) :
    verifyCore (Except.ok (scrubPolicy p)) gp iso c src =
      verifyCore (Except.ok p) gp iso c src := by
  unfold verifyCore
  dsimp only
  rw [lookup_scrub]
  cases List.lookup (if isSecurityClaim c then "cipher" else "prism") p.agents with
  | none => rfl
  | some ap => rfl

/-- The verify flow is unchanged when every agent's `allowed_intents` is
erased. -/
theorem verifyFlow_scrub (p : Policy) (gp : ProviderOracle) (iso : String) (bs : Nat)
    (vb : Option VerifyPayload) :
    verifyFlow (Except.ok (scrubPolicy p)) gp iso bs vb =
      verifyFlow (Except.ok p) gp iso bs vb := by
  unfold verifyFlow
  repeat' split
  all_goals first | exact verifyCore_scrub p gp iso _ _ | rfl

/-- A POST /v1/verify request routes to `verifyFlow` with exactly the
data the verify path reads. -/
theorem routeTry_verify (env : Env) (req : Request) (m : Metrics) (rl : RLWindows)
    (hm : req.method = "POST") (hu : req.url = "/v1/verify") :
    routeTry env req m rl =
      { code := (verifyFlow env.policyLoad env.providers env.nowIso req.bodySize
          req.verifyBody).1
        payload := (verifyFlow env.policyLoad env.providers env.nowIso req.bodySize
          req.verifyBody).2.1
        rl := rl
        verifyJournaled := (verifyFlow env.policyLoad env.providers env.nowIso req.bodySize
          req.verifyBody).2.2 } := by
  simp [routeTry, hm, hu]

/-- The verify flow never yields the loopback-gate 403 or the
rate-limit 429 status codes. -/
theorem verifyCore_code_not_gate (pl : Except String Policy) (gp : ProviderOracle)
    (iso c : String) (src : List String) :
    (verifyCore pl gp iso c src).1 ≠ 403 ∧ (verifyCore pl gp iso c src).1 ≠ 429 := by
  unfold verifyCore
  dsimp only
  repeat' split
  all_goals exact ⟨by simp, by simp⟩

theorem verifyFlow_code_not_gate (pl : Except String Policy) (gp : ProviderOracle)
    (iso : String) (bs : Nat) (vb : Option VerifyPayload) :
    (verifyFlow pl gp iso bs vb).1 ≠ 403 ∧ (verifyFlow pl gp iso bs vb).1 ≠ 429 := by
  unfold verifyFlow
  repeat' split
  all_goals first | exact verifyCore_code_not_gate pl gp iso _ _ | exact ⟨by simp, by simp⟩

/-- C9: handling of POST /v1/verify does not depend on the client's
remote address, the `allowRemote` configuration, the metrics state or
the rate-limiter state (two verify requests differing only in those
receive identical responses); the route never produces the
"Remote access denied" 403 nor a 429; it performs no rate-limit
`record` (the limiter state passes through unchanged); and erasing
every agent's `allowed_intents` leaves the response unchanged (no
intent authorization check). -/
theorem verify_noninterference (env : Env) (req : Request) (m m2 : Metrics)
    (rl1 rl2 : RLWindows) (a2 : String) (ar2 : Bool)
    (hm : req.method = "POST") (hu : req.url = "/v1/verify") :
    ((handle { env with config := { env.config with allowRemote := ar2 } }
        { req with remoteAddress := a2 } m2 rl2).response =
      (handle env req m rl1).response)
    ∧ (handle env req m rl1).response.code ≠ 403
    ∧ (handle env req m rl1).response.code ≠ 429
    ∧ (handle env req m rl1).rlState = rl1
    ∧ ((handle { env with policyLoad := scrubIntentsE env.policyLoad } req m rl1).response =
        (handle env req m rl1).response) := by
  have hv := routeTry_verify env req m rl1 hm hu
  have hv2 := routeTry_verify { env with config := { env.config with allowRemote := ar2 } }
    { req with remoteAddress := a2 } m2 rl2 hm hu
  have hv3 := routeTry_verify { env with policyLoad := scrubIntentsE env.policyLoad }
    req m rl1 hm hu
  refine ⟨?_, ?_, ?_, ?_, ?_⟩
  · show (⟨(routeTry { env with config := { env.config with allowRemote := ar2 } }
        { req with remoteAddress := a2 } m2 rl2).code,
      sendPatch (routeTry { env with config := { env.config with allowRemote := ar2 } }
        { req with remoteAddress := a2 } m2 rl2).payload⟩ : Response) =
      ⟨(routeTry env req m rl1).code, sendPatch (routeTry env req m rl1).payload⟩
    rw [hv, hv2]
  · show (routeTry env req m rl1).code ≠ 403
    rw [hv]
    exact (verifyFlow_code_not_gate env.policyLoad env.providers env.nowIso req.bodySize
      req.verifyBody).1
  · show (routeTry env req m rl1).code ≠ 429
    rw [hv]
    exact (verifyFlow_code_not_gate env.policyLoad env.providers env.nowIso req.bodySize
      req.verifyBody).2
  · show (routeTry env req m rl1).rl = rl1
    rw [hv]
  · show (⟨(routeTry { env with policyLoad := scrubIntentsE env.policyLoad } req m rl1).code,
      sendPatch (routeTry { env with policyLoad := scrubIntentsE env.policyLoad }
        req m rl1).payload⟩ : Response) =
      ⟨(routeTry env req m rl1).code, sendPatch (routeTry env req m rl1).payload⟩
    rw [hv, hv3]
    cases hpl : env.policyLoad with
    | error e => rfl
    | ok p =>
      show (⟨(verifyFlow (scrubIntentsE (Except.ok p)) env.providers env.nowIso req.bodySize
          req.verifyBody).1, _⟩ : Response) = _
      rw [show scrubIntentsE (Except.ok p) = Except.ok (scrubPolicy p) from rfl,
        verifyFlow_scrub]

/-- Request for the C9 witness. -/
def reqC9 : Request :=
  { method := "POST", url := "/v1/verify", remoteAddress := "127.0.0.1"
    verifyBody := some { claim := JsField.str "the sky is green" } }

/-- Witness for C9 at a concrete verify request, discharging the
method/url hypotheses. -/
theorem verify_noninterference_witness :
    (handle {} reqC9 {} emptyWindows).response.code ≠ 403
    ∧ (handle {} reqC9 {} emptyWindows).rlState = emptyWindows :=
  ⟨(verify_noninterference {} reqC9 {} {} emptyWindows emptyWindows "203.0.113.5" true
      rfl rfl).2.1,
   (verify_noninterference {} reqC9 {} {} emptyWindows emptyWindows "203.0.113.5" true
      rfl rfl).2.2.2.1⟩

end BlackRoad
